import Mathlib

/-!
# GPS fix classification and connection state tracking

A shallow embedding of `src/core/gps/qgsgpsconnection.cpp`:

* `QgsGpsInformation::bestFixStatus`, `isValid`, `fixStatus`, `componentValue`
* `QgsGpsConnection::connect`, `close`, `cleanupSource`, `setSource`,
  `onStateChanged`, `clearLastGPSInformation`

and a model of the track of `QgsAppGpsDigitizing` (declared in
`src/app/gps/qgsappgpsdigitizing.h`) with its two lengths.

Stateful member functions are written as pure functions from the object's
state to the new state together with the list of signals emitted, in order.
-/

namespace Qgis

/-- The fix status enumeration `Qgis::GpsFixStatus`, in declaration order. -/
inductive GpsFixStatus where
  | NoData
  | NoFix
  | Fix2D
  | Fix3D
  deriving DecidableEq, Repr

/-- The constellation enumeration `Qgis::GnssConstellation`, in declaration
order (which is the key order of a `QMap` keyed by it). -/
inductive GnssConstellation where
  | Unknown
  | Gps
  | Glonass
  | Galileo
  | BeiDou
  | Qzss
  | Navic
  | Sbas
  deriving DecidableEq, Repr

/-- The quality enumeration `Qgis::GpsQualityIndicator`. -/
inductive GpsQualityIndicator where
  | Unknown
  | Invalid
  | GPS
  | DGPS
  | PPS
  | RTK
  | FloatRTK
  | Estimated
  | Manual
  | Simulation
  deriving DecidableEq, Repr

/-- Ordinal of a fix status: `NoData < NoFix < Fix2D < Fix3D`. -/
def GpsFixStatus.rank : GpsFixStatus → Nat
  | .NoData => 0
  | .NoFix => 1
  | .Fix2D => 2
  | .Fix3D => 3

/-- Ordinal of a constellation, the order in which a `QMap` iterates its keys. -/
def GnssConstellation.ord : GnssConstellation → Nat
  | .Unknown => 0
  | .Gps => 1
  | .Glonass => 2
  | .Galileo => 3
  | .BeiDou => 4
  | .Qzss => 5
  | .Navic => 6
  | .Sbas => 7

end Qgis

open Qgis

/-- A C++ `double` as far as comparisons see it: a finite value (every finite
double is a rational number), one of the two infinities, or not-a-number. -/
inductive Dbl where
  | nan
  | negInf
  | fin (q : ℚ)
  | posInf
  deriving DecidableEq

namespace Dbl

/-- The comparison `a <= b` of two doubles; false as soon as one is NaN. -/
def le : Dbl → Dbl → Bool
  | nan, _ => false
  | _, nan => false
  | negInf, _ => true
  | _, posInf => true
  | fin a, fin b => decide (a ≤ b)
  | fin _, negInf => false
  | posInf, fin _ => false
  | posInf, negInf => false

/-- The comparison `a >= b` of two doubles. -/
def ge (a b : Dbl) : Bool := le b a

/-- The test `std::isnan`. -/
def isNaN : Dbl → Bool
  | nan => true
  | _ => false

end Dbl

/-- The fields of `QgsGpsInformation` read by the functions embedded here.
`mConstellationFixStatus` is the `QMap` from constellation to fix status, given
as its entries in iteration order. -/
structure QgsGpsInformation where
  latitude : Dbl
  longitude : Dbl
  elevation : Dbl
  speed : Dbl
  direction : Dbl
  fixType : Int
  mConstellationFixStatus : List (GnssConstellation × GpsFixStatus)
  quality : Int
  qualityIndicator : GpsQualityIndicator
  status : Char
  deriving DecidableEq

namespace QgsGpsInformation

/-- One pass of the loop body of `bestFixStatus`: the pair
`(bestStatus, constellation)` after looking at the entry `e`. -/
def bestFixStep (acc : GpsFixStatus × GnssConstellation)
    (e : GnssConstellation × GpsFixStatus) : GpsFixStatus × GnssConstellation :=
  if e.2 = GpsFixStatus.Fix3D
      ∨ (e.2 = GpsFixStatus.Fix2D ∧ acc.1 ≠ GpsFixStatus.Fix3D)
      ∨ (e.2 = GpsFixStatus.NoFix ∧ acc.1 = GpsFixStatus.NoData) then
    (e.2, e.1)
  else
    acc

/-- The loop of `bestFixStatus` over the entries of a mapping, started from
`(NoData, Unknown)`. -/
def bestFixOf (m : List (GnssConstellation × GpsFixStatus)) :
    GpsFixStatus × GnssConstellation :=
  m.foldl bestFixStep (GpsFixStatus.NoData, GnssConstellation.Unknown)

/-- `QgsGpsInformation::bestFixStatus`: the returned status paired with the
value left in the `constellation` out-parameter. -/
def bestFixStatus (r : QgsGpsInformation) : GpsFixStatus × GnssConstellation :=
  bestFixOf r.mConstellationFixStatus

/-- `QgsGpsInformation::isValid`. -/
def isValid (r : QgsGpsInformation) : Bool :=
  let bestFix := (bestFixStatus r).1
  let valid : Bool :=
    if r.status = 'V'
        ∨ bestFix = GpsFixStatus.NoFix
        ∨ r.qualityIndicator = GpsQualityIndicator.Invalid then
      false
    else if r.status = 'A'
        ∨ bestFix = GpsFixStatus.Fix2D
        ∨ bestFix = GpsFixStatus.Fix3D
        ∨ r.qualityIndicator ≠ GpsQualityIndicator.Invalid then
      true
    else
      false
  valid && (Dbl.ge r.longitude (Dbl.fin (-180)) && Dbl.le r.longitude (Dbl.fin 180)
    && Dbl.ge r.latitude (Dbl.fin (-90)) && Dbl.le r.latitude (Dbl.fin 90))

end QgsGpsInformation

/-- The fix type codes `NMEA_FIX_BAD`, `NMEA_FIX_2D` and `NMEA_FIX_3D` of the
header `info.h`, which `fixStatus` compares `fixType` with. -/
structure NmeaFixCodes where
  NMEA_FIX_BAD : Int
  NMEA_FIX_2D : Int
  NMEA_FIX_3D : Int

namespace QgsGpsInformation

/-- `QgsGpsInformation::fixStatus`. -/
def fixStatus (k : NmeaFixCodes) (r : QgsGpsInformation) : GpsFixStatus :=
  if r.status = 'V' ∨ r.fixType = k.NMEA_FIX_BAD
      ∨ r.qualityIndicator = GpsQualityIndicator.Invalid then
    GpsFixStatus.NoFix
  else if r.fixType = k.NMEA_FIX_2D then
    GpsFixStatus.Fix2D
  else if r.status = 'A' ∨ r.fixType = k.NMEA_FIX_3D
      ∨ r.qualityIndicator ≠ GpsQualityIndicator.Invalid then
    GpsFixStatus.Fix3D
  else
    GpsFixStatus.NoData

end QgsGpsInformation

/-- The signature `QgsPoint( x, y, z )` used for the last known location: the
three coordinates handed to the constructor. -/
structure QgsPoint where
  x : Dbl
  y : Dbl
  z : Dbl
  deriving DecidableEq

/-- The enumeration `QgsGpsConnection::Status`. -/
inductive Status where
  | NotConnected
  | Connected
  | DataReceived
  | GPSDataReceived
  deriving DecidableEq, Repr

/-- Modelled from the spec: the transport behind `mSource` (a `QIODevice`), an
excluded collaborator that exposes `open()` and `close()`. `openResult` is the
answer its `open` call gives, `isOpen` whether it is open. -/
structure QIODevice where
  openResult : Bool
  isOpen : Bool
  deriving DecidableEq

namespace QIODevice

/-- The call `mSource->open( ... )`: the result and the device afterwards. -/
def openDevice (d : QIODevice) : Bool × QIODevice :=
  (d.openResult, { d with isOpen := d.isOpen || d.openResult })

/-- The call `mSource->close()`. -/
def close (d : QIODevice) : QIODevice :=
  { d with isOpen := false }

end QIODevice

/-- The signals of `QgsGpsConnection` emitted by the functions embedded here. -/
inductive GpsSignal where
  | positionChanged (p : QgsPoint)
  | fixStatusChanged (s : GpsFixStatus)
  deriving DecidableEq

namespace GpsSignal

/-- Whether a signal is a `fixStatusChanged`. -/
def isFixStatusChanged : GpsSignal → Bool
  | fixStatusChanged _ => true
  | _ => false

/-- Whether a signal is a `positionChanged`. -/
def isPositionChanged : GpsSignal → Bool
  | positionChanged _ => true
  | _ => false

end GpsSignal

/-- The members of `QgsGpsConnection` that the functions embedded here read or
write. `mSource` is the owned device pointer, `none` when it is null. -/
structure QgsGpsConnection where
  mSource : Option QIODevice
  mLastGPSInformation : QgsGpsInformation
  mStatus : Status
  mLastFixStatus : GpsFixStatus
  mLastLocation : QgsPoint
  deriving DecidableEq

/-- Modelled from the spec: the neutral "no data" report, a default-constructed
`QgsGpsInformation`. The class declaration (header `qgsgpsconnection.h`) gives
the members their initial values: coordinates, elevation and speed 0, direction
NaN, fix type 0, an empty constellation mapping, quality -1 with indicator
Unknown, and a null status character. -/
def QgsGpsInformation.neutral : QgsGpsInformation where
  latitude := Dbl.fin 0
  longitude := Dbl.fin 0
  elevation := Dbl.fin 0
  speed := Dbl.fin 0
  direction := Dbl.nan
  fixType := 0
  mConstellationFixStatus := []
  quality := -1
  qualityIndicator := GpsQualityIndicator.Unknown
  status := Char.ofNat 0

/-- Modelled from the spec: the neutral (empty) position, a default-constructed
`QgsPoint`, whose coordinates are all NaN. -/
def QgsPoint.empty : QgsPoint := ⟨Dbl.nan, Dbl.nan, Dbl.nan⟩

namespace QgsGpsConnection

/-- The constructor `QgsGpsConnection( QIODevice *dev )`: the device is stored,
the other members keep their initial values (status `NotConnected`, fix status
`NoData`, default report and point). -/
def init (dev : Option QIODevice) : QgsGpsConnection where
  mSource := dev
  mLastGPSInformation := QgsGpsInformation.neutral
  mStatus := Status.NotConnected
  mLastFixStatus := GpsFixStatus.NoData
  mLastLocation := QgsPoint.empty

/-- `QgsGpsConnection::connect`: the returned flag and the connection
afterwards. It emits no signal. -/
def connect (c : QgsGpsConnection) : Bool × QgsGpsConnection :=
  match c.mSource with
  | none => (false, c)
  | some d =>
    let connected := d.openDevice.1
    let c1 := { c with mSource := some d.openDevice.2 }
    if connected then
      (connected, { c1 with mStatus := Status.Connected })
    else
      (connected, c1)

/-- `QgsGpsConnection::close`: the returned flag, the connection afterwards and
the signals emitted. -/
def close (c : QgsGpsConnection) : Bool × QgsGpsConnection × List GpsSignal :=
  match c.mSource with
  | none => (false, c, [])
  | some d =>
    let c1 := { c with mSource := some d.close }
    if c1.mLastFixStatus ≠ GpsFixStatus.NoData then
      let c2 := { c1 with mLastFixStatus := GpsFixStatus.NoData }
      (true, c2, [GpsSignal.fixStatusChanged c2.mLastFixStatus])
    else
      (true, c1, [])

/-- `QgsGpsConnection::cleanupSource`: the connection afterwards and the
signals emitted. -/
def cleanupSource (c : QgsGpsConnection) : QgsGpsConnection × List GpsSignal :=
  let c1 := { c with mSource := none }
  if c1.mLastFixStatus ≠ GpsFixStatus.NoData then
    let c2 := { c1 with mLastFixStatus := GpsFixStatus.NoData }
    (c2, [GpsSignal.fixStatusChanged c2.mLastFixStatus])
  else
    (c1, [])

/-- `QgsGpsConnection::clearLastGPSInformation`. -/
def clearLastGPSInformation (c : QgsGpsConnection) : QgsGpsConnection :=
  { c with mLastGPSInformation := QgsGpsInformation.neutral }

/-- `QgsGpsConnection::setSource`: the connection afterwards and the signals
emitted. -/
def setSource (c : QgsGpsConnection) (source : Option QIODevice) :
    QgsGpsConnection × List GpsSignal :=
  let r := cleanupSource c
  let c1 := { r.1 with mSource := source }
  (clearLastGPSInformation c1, r.2)

/-- `QgsGpsConnection::onStateChanged`: the connection afterwards and the
signals emitted, in order. `pointNe` is `QgsPoint`'s `operator!=`, which is
declared with `QgsPoint`. -/
def onStateChanged (pointNe : QgsPoint → QgsPoint → Bool) (c : QgsGpsConnection)
    (info : QgsGpsInformation) : QgsGpsConnection × List GpsSignal :=
  let r1 : QgsGpsConnection × List GpsSignal :=
    if info.isValid then
      let oldPosition := c.mLastLocation
      let c1 := { c with mLastLocation := QgsPoint.mk info.longitude info.latitude info.elevation }
      if pointNe c1.mLastLocation oldPosition then
        (c1, [GpsSignal.positionChanged c1.mLastLocation])
      else
        (c1, [])
    else
      (c, [])
  let bestFix := info.bestFixStatus.1
  if bestFix ≠ r1.1.mLastFixStatus then
    let c2 := { r1.1 with mLastFixStatus := bestFix }
    (c2, r1.2 ++ [GpsSignal.fixStatusChanged c2.mLastFixStatus])
  else
    (r1.1, r1.2)

/-- Feeding a sequence of reports to `onStateChanged`, one after the other:
the connection afterwards and, for each report, the signals it made the
connection emit. -/
def feed (pointNe : QgsPoint → QgsPoint → Bool) :
    QgsGpsConnection → List QgsGpsInformation → QgsGpsConnection × List (List GpsSignal)
  | c, [] => (c, [])
  | c, info :: rest =>
    let r := onStateChanged pointNe c info
    let t := feed pointNe r.1 rest
    (t.1, r.2 :: t.2)

/-- Modelled from the spec: the delivery of a decoded report by the
sentence/report decoder (the `parseData` of a subclass, an excluded
collaborator): the report replaces `mLastGPSInformation` wholesale, then the
`stateChanged` notification runs `onStateChanged` on it. -/
def onReport (pointNe : QgsPoint → QgsPoint → Bool) (c : QgsGpsConnection)
    (info : QgsGpsInformation) : QgsGpsConnection × List GpsSignal :=
  onStateChanged pointNe { c with mLastGPSInformation := info } info

end QgsGpsConnection

/-- The operations on a connection: `connect`, the delivery of a report,
`close`, `clearLastGPSInformation` and `setSource`. -/
inductive ConnOp where
  | connect
  | report (info : QgsGpsInformation)
  | close
  | clear
  | setSource (source : Option QIODevice)

namespace QgsGpsConnection

/-- The connection after one operation. -/
def applyOp (pointNe : QgsPoint → QgsPoint → Bool) (c : QgsGpsConnection) :
    ConnOp → QgsGpsConnection
  | ConnOp.connect => (connect c).2
  | ConnOp.report info => (onReport pointNe c info).1
  | ConnOp.close => (close c).2.1
  | ConnOp.clear => clearLastGPSInformation c
  | ConnOp.setSource source => (setSource c source).1

/-- The connection after a sequence of operations, first to last. -/
def run (pointNe : QgsPoint → QgsPoint → Bool) (c : QgsGpsConnection)
    (ops : List ConnOp) : QgsGpsConnection :=
  ops.foldl (applyOp pointNe) c

end QgsGpsConnection

/-- The maximum of the statuses of a mapping's entries under
`NoData < NoFix < Fix2D < Fix3D`, `NoData` for the empty mapping. -/
def maxFixStatus : List (GnssConstellation × GpsFixStatus) → GpsFixStatus
  | [] => GpsFixStatus.NoData
  | e :: rest => if (maxFixStatus rest).rank ≤ e.2.rank then e.2 else maxFixStatus rest

/-- The first key, in iteration order, whose status is `s`. -/
def firstKeyWith (s : GpsFixStatus) (m : List (GnssConstellation × GpsFixStatus)) :
    Option GnssConstellation :=
  (m.find? (fun e => decide (e.2 = s))).map Prod.fst

/-- The last key, in iteration order, whose status is `s`. -/
def lastKeyWith (s : GpsFixStatus) (m : List (GnssConstellation × GpsFixStatus)) :
    Option GnssConstellation :=
  firstKeyWith s m.reverse

/-- Point inequality by comparing the three coordinates for identity, one
possible `operator!=`. -/
def QgsPoint.neExact (p q : QgsPoint) : Bool := decide (p ≠ q)

/-- A double lies in the closed interval `[lo, hi]`: it is a finite number
between the two bounds. -/
def Dbl.within (lo hi : ℚ) : Dbl → Prop
  | Dbl.fin q => lo ≤ q ∧ q ≤ hi
  | _ => False

instance (lo hi : ℚ) (x : Dbl) : Decidable (Dbl.within lo hi x) :=
  match x with
  | Dbl.fin q => inferInstanceAs (Decidable (lo ≤ q ∧ q ≤ hi))
  | Dbl.nan => isFalse (fun h => h)
  | Dbl.negInf => isFalse (fun h => h)
  | Dbl.posInf => isFalse (fun h => h)

/-- A report with every good signal (status `A`, quality RTK, a Fix3D entry)
at longitude 181. -/
def sampleOutOfRange : QgsGpsInformation :=
  { QgsGpsInformation.neutral with
    longitude := Dbl.fin 181
    latitude := Dbl.fin 45
    status := 'A'
    qualityIndicator := GpsQualityIndicator.RTK
    mConstellationFixStatus := [(GnssConstellation.Gps, GpsFixStatus.Fix3D)] }

/-- A report with two constellations at Fix3D, in key order. -/
def sampleTie3D : QgsGpsInformation :=
  { QgsGpsInformation.neutral with
    mConstellationFixStatus :=
      [(GnssConstellation.Gps, GpsFixStatus.Fix3D), (GnssConstellation.Glonass, GpsFixStatus.Fix3D)] }

/-- A report with two constellations at Fix2D, in key order. -/
def sampleTie2D : QgsGpsInformation :=
  { QgsGpsInformation.neutral with
    mConstellationFixStatus :=
      [(GnssConstellation.Gps, GpsFixStatus.Fix2D), (GnssConstellation.Galileo, GpsFixStatus.Fix2D)] }

/-- The status `s` is a maximum of the statuses of `m`, with `NoData` as the
least value: no entry ranks above it, and it is `NoData` or some entry has it. -/
def IsMaxStatus (m : List (GnssConstellation × GpsFixStatus)) (s : GpsFixStatus) : Prop :=
  (∀ e ∈ m, e.2.rank ≤ s.rank) ∧ (s = GpsFixStatus.NoData ∨ ∃ e ∈ m, e.2 = s)

/-- A device that opens successfully and is open. -/
def sampleDevice : QIODevice := ⟨true, true⟩

/-- A report whose only constellation entry is Gps at Fix3D. -/
def sampleFix3D : QgsGpsInformation :=
  { QgsGpsInformation.neutral with
    mConstellationFixStatus := [(GnssConstellation.Gps, GpsFixStatus.Fix3D)] }

/-- A report whose only constellation entry is Gps at NoFix. -/
def sampleNoFix : QgsGpsInformation :=
  { QgsGpsInformation.neutral with
    mConstellationFixStatus := [(GnssConstellation.Gps, GpsFixStatus.NoFix)] }

/-- A connected session showing Fix3D. -/
def sampleConnected : QgsGpsConnection :=
  { QgsGpsConnection.init (some sampleDevice) with
    mStatus := Status.Connected
    mLastFixStatus := GpsFixStatus.Fix3D
    mLastGPSInformation := sampleFix3D }

/-- The `fixStatusChanged` signals among those emitted. -/
def fixSignals (l : List GpsSignal) : List GpsSignal :=
  l.filter GpsSignal.isFixStatusChanged

/-- The `positionChanged` signals among those emitted. -/
def positionSignals (l : List GpsSignal) : List GpsSignal :=
  l.filter GpsSignal.isPositionChanged

/-- The relation between the stored report and the stored fix status that
every operation keeps: when the stored report is not the neutral one, the
stored status is the report's best fix status or NoData. -/
def FixStatusTracksReport (c : QgsGpsConnection) : Prop :=
  c.mLastGPSInformation ≠ QgsGpsInformation.neutral →
    c.mLastFixStatus = c.mLastGPSInformation.bestFixStatus.1
      ∨ c.mLastFixStatus = GpsFixStatus.NoData

/-- The enumeration `Qgis::GpsInformationComponent`, with the components the
switch of `componentValue` lists. -/
inductive Qgis.GpsInformationComponent where
  | Location
  | Altitude
  | GroundSpeed
  | Bearing
  | TotalTrackLength
  | TrackDistanceFromStart
  deriving DecidableEq, Repr

/-- The `QVariant` values that `componentValue` returns: the null variant
`QVariant()`, a `QgsPointXY` or a double. -/
inductive QVariant where
  | null
  | pointXY (x y : Dbl)
  | double (d : Dbl)
  deriving DecidableEq

/-- `QgsGpsInformation::componentValue`. -/
def QgsGpsInformation.componentValue (r : QgsGpsInformation)
    (component : GpsInformationComponent) : QVariant :=
  if !r.isValid then
    QVariant.null
  else
    match component with
    | GpsInformationComponent.Location => QVariant.pointXY r.longitude r.latitude
    | GpsInformationComponent.Altitude => QVariant.double r.elevation
    | GpsInformationComponent.GroundSpeed => QVariant.double r.speed
    | GpsInformationComponent.Bearing =>
      if r.direction.isNaN then QVariant.null else QVariant.double r.direction
    | GpsInformationComponent.TotalTrackLength => QVariant.null
    | GpsInformationComponent.TrackDistanceFromStart => QVariant.null

/-- Modelled from the spec: the Distance Calculator's `length` of a sequence of
points, the cumulative length over consecutive vertices, for a given
`distance` between two points (`QgsDistanceArea`, an excluded collaborator).
Lengths are values of an ordered additive monoid `α` (meters). -/
def measureLine {α : Type} [OrderedAddCommMonoid α] (distance : QgsPoint → QgsPoint → α) :
    List QgsPoint → α
  | [] => 0
  | [_] => 0
  | p :: q :: rest => distance p q + measureLine distance (q :: rest)

/-- Modelled from the spec: the Track of the Track Accumulator
(`QgsAppGpsDigitizing`, whose implementation file is not part of the sources):
the ordered sequence of accepted vertices, the member `mCaptureListWgs84`. -/
structure Track where
  mCaptureListWgs84 : List QgsPoint
  deriving DecidableEq

/-- The operations that change the vertex sequence of a track: an accepted
`addVertex` with the vertex it appends, and `resetTrack`. -/
inductive TrackOp where
  | addVertex (p : QgsPoint)
  | resetTrack

namespace Track

/-- Modelled from the spec: the track at the start of a session, empty. -/
def empty : Track := ⟨[]⟩

/-- Modelled from the spec: an accepted `addVertex` appends the vertex to the
sequence. -/
def addVertex (t : Track) (p : QgsPoint) : Track :=
  ⟨t.mCaptureListWgs84 ++ [p]⟩

/-- Modelled from the spec: `resetTrack` clears the vertex sequence. -/
def resetTrack (_t : Track) : Track := ⟨[]⟩

/-- The track after one operation. -/
def applyOp (t : Track) : TrackOp → Track
  | TrackOp.addVertex p => t.addVertex p
  | TrackOp.resetTrack => t.resetTrack

/-- The track after a sequence of operations on the empty track. -/
def run (ops : List TrackOp) : Track :=
  ops.foldl applyOp empty

/-- Modelled from the spec: `totalTrackLength`, the cumulative length over
consecutive vertices, recomputed from the vertex sequence. -/
def totalTrackLength {α : Type} [OrderedAddCommMonoid α]
    (distance : QgsPoint → QgsPoint → α) (t : Track) : α :=
  measureLine distance t.mCaptureListWgs84

/-- Modelled from the spec: `trackDistanceFromStart`, the direct distance
between the first and the last vertex, 0 for the empty track. -/
def trackDistanceFromStart {α : Type} [OrderedAddCommMonoid α]
    (distance : QgsPoint → QgsPoint → α) (t : Track) : α :=
  match t.mCaptureListWgs84 with
  | [] => 0
  | p :: rest => distance p ((p :: rest).getLast (List.cons_ne_nil p rest))

end Track

/-- A distance between points for which every two different points are one
unit apart. -/
def QgsPoint.unitDistance (p q : QgsPoint) : ℕ := if p = q then 0 else 1

/-- Three accepted vertices, the third back at the first. -/
def sampleTrackOps : List TrackOp :=
  [TrackOp.addVertex ⟨Dbl.fin 0, Dbl.fin 0, Dbl.fin 0⟩,
   TrackOp.addVertex ⟨Dbl.fin 0, Dbl.fin 1, Dbl.fin 0⟩,
   TrackOp.addVertex ⟨Dbl.fin 0, Dbl.fin 0, Dbl.fin 0⟩]

/-- A valid report with undefined direction, elevation 12 and speed 3. -/
def sampleValid : QgsGpsInformation :=
  { QgsGpsInformation.neutral with
    longitude := Dbl.fin 7
    latitude := Dbl.fin 46
    elevation := Dbl.fin 12
    speed := Dbl.fin 3
    status := 'A' }

/-! ## Lemmas on double comparisons -/

lemma Dbl.within_iff (lo hi : ℚ) (x : Dbl) :
    Dbl.within lo hi x ↔ (Dbl.ge x (Dbl.fin lo) = true ∧ Dbl.le x (Dbl.fin hi) = true) := by
  cases x <;> simp [Dbl.within, Dbl.ge, Dbl.le]

lemma QgsGpsInformation.isValid_bounds (r : QgsGpsInformation) (h : r.isValid = true) :
    Dbl.ge r.longitude (Dbl.fin (-180)) = true ∧ Dbl.le r.longitude (Dbl.fin 180) = true
      ∧ Dbl.ge r.latitude (Dbl.fin (-90)) = true ∧ Dbl.le r.latitude (Dbl.fin 90) = true := by
  unfold QgsGpsInformation.isValid at h
  simp only [Bool.and_eq_true] at h
  exact ⟨h.2.1.1.1, h.2.1.1.2, h.2.1.2, h.2.2⟩

/-! ## Validity of a report -/

/-- C1: a report is valid exactly when its status is not `V`, its best fix
status is not NoFix, its quality indicator is not Invalid, its longitude is in
[-180, 180] and its latitude in [-90, 90]. -/
theorem isValid_iff (r : QgsGpsInformation) :
    r.isValid = true ↔
      (r.status ≠ 'V' ∧ r.bestFixStatus.1 ≠ GpsFixStatus.NoFix
        ∧ r.qualityIndicator ≠ GpsQualityIndicator.Invalid
        ∧ Dbl.within (-180) 180 r.longitude ∧ Dbl.within (-90) 90 r.latitude) := by
  rw [Dbl.within_iff, Dbl.within_iff]
  unfold QgsGpsInformation.isValid
  by_cases hV : r.status = 'V'
  · simp [hV]
  · by_cases hF : r.bestFixStatus.1 = GpsFixStatus.NoFix
    · simp [hF]
    · by_cases hQ : r.qualityIndicator = GpsQualityIndicator.Invalid
      · simp [hQ]
      · simp [hV, hF, hQ, and_assoc]

/-- C2: a report whose longitude is outside [-180, 180] or whose latitude is
outside [-90, 90] is invalid, whatever its other fields are. -/
theorem isValid_false_of_out_of_range (r : QgsGpsInformation)
    (h : ¬ Dbl.within (-180) 180 r.longitude ∨ ¬ Dbl.within (-90) 90 r.latitude) :
    r.isValid = false := by
  rw [Dbl.within_iff, Dbl.within_iff] at h
  cases hv : r.isValid with
  | false => rfl
  | true =>
    have hb := QgsGpsInformation.isValid_bounds r hv
    rcases h with h | h
    · exact absurd ⟨hb.1, hb.2.1⟩ h
    · exact absurd ⟨hb.2.2.1, hb.2.2.2⟩ h

/-- Witness of C2: the report `sampleOutOfRange`, with status `A`, quality RTK
and a Fix3D entry, is invalid at longitude 181. -/
theorem isValid_false_of_out_of_range_witness :
    sampleOutOfRange.status = 'A'
      ∧ sampleOutOfRange.qualityIndicator = GpsQualityIndicator.RTK
      ∧ sampleOutOfRange.bestFixStatus.1 = GpsFixStatus.Fix3D
      ∧ ¬ Dbl.within (-180) 180 sampleOutOfRange.longitude
      ∧ sampleOutOfRange.isValid = false :=
  ⟨by decide, by decide, by decide, by decide,
    isValid_false_of_out_of_range sampleOutOfRange (Or.inl (by decide))⟩

/-! ## The scalar-only reduction -/

/-- C5: `fixStatus` follows its decision table, evaluated in order (veto to
NoFix, then 2D, then Fix3D, else NoData), and two reports with the same status
character, fix type and quality indicator get the same result, whatever their
constellation mappings and coordinates are. -/
theorem fixStatus_decision_table (k : NmeaFixCodes) (r : QgsGpsInformation) :
    ((r.status = 'V' ∨ r.fixType = k.NMEA_FIX_BAD
        ∨ r.qualityIndicator = GpsQualityIndicator.Invalid) →
      r.fixStatus k = GpsFixStatus.NoFix)
    ∧ (¬ (r.status = 'V' ∨ r.fixType = k.NMEA_FIX_BAD
        ∨ r.qualityIndicator = GpsQualityIndicator.Invalid) →
      (r.fixType = k.NMEA_FIX_2D → r.fixStatus k = GpsFixStatus.Fix2D)
      ∧ (r.fixType ≠ k.NMEA_FIX_2D →
          ((r.status = 'A' ∨ r.fixType = k.NMEA_FIX_3D
              ∨ r.qualityIndicator ≠ GpsQualityIndicator.Invalid) →
            r.fixStatus k = GpsFixStatus.Fix3D)
          ∧ (¬ (r.status = 'A' ∨ r.fixType = k.NMEA_FIX_3D
              ∨ r.qualityIndicator ≠ GpsQualityIndicator.Invalid) →
            r.fixStatus k = GpsFixStatus.NoData)))
    ∧ (∀ r2 : QgsGpsInformation, r2.status = r.status → r2.fixType = r.fixType →
        r2.qualityIndicator = r.qualityIndicator → r2.fixStatus k = r.fixStatus k) := by
  refine ⟨?_, ?_, ?_⟩
  · intro h
    simp only [QgsGpsInformation.fixStatus, if_pos h]
  · intro h
    refine ⟨?_, ?_⟩
    · intro h2
      simp only [QgsGpsInformation.fixStatus, if_neg h, if_pos h2]
    · intro h2
      refine ⟨?_, ?_⟩
      · intro h3
        simp only [QgsGpsInformation.fixStatus, if_neg h, if_neg h2, if_pos h3]
      · intro h3
        simp only [QgsGpsInformation.fixStatus, if_neg h, if_neg h2, if_neg h3]
  · intro r2 h1 h2 h3
    simp only [QgsGpsInformation.fixStatus, h1, h2, h3]

/-! ## The best fix status of a constellation mapping -/

lemma GpsFixStatus.rank_injective {a b : GpsFixStatus} (h : a.rank = b.rank) : a = b := by
  cases a <;> cases b <;> simp [GpsFixStatus.rank] at h <;> rfl

lemma IsMaxStatus.unique {m : List (GnssConstellation × GpsFixStatus)} {s t : GpsFixStatus}
    (hs : IsMaxStatus m s) (ht : IsMaxStatus m t) : s = t := by
  apply GpsFixStatus.rank_injective
  apply Nat.le_antisymm
  · rcases hs.2 with h | ⟨e, he, h⟩
    · simp [h, GpsFixStatus.rank]
    · rw [← h]; exact ht.1 e he
  · rcases ht.2 with h | ⟨e, he, h⟩
    · simp [h, GpsFixStatus.rank]
    · rw [← h]; exact hs.1 e he

lemma IsMaxStatus.perm {m m2 : List (GnssConstellation × GpsFixStatus)} {s : GpsFixStatus}
    (hp : m2.Perm m) (hs : IsMaxStatus m s) : IsMaxStatus m2 s := by
  refine ⟨fun e he => hs.1 e (hp.mem_iff.mp he), ?_⟩
  rcases hs.2 with h | ⟨e, he, h⟩
  · exact Or.inl h
  · exact Or.inr ⟨e, hp.mem_iff.mpr he, h⟩

lemma maxFixStatus_isMax (m : List (GnssConstellation × GpsFixStatus)) :
    IsMaxStatus m (maxFixStatus m) := by
  induction m with
  | nil => exact ⟨by simp, Or.inl rfl⟩
  | cons e rest ih =>
    unfold maxFixStatus
    by_cases h : (maxFixStatus rest).rank ≤ e.2.rank
    · rw [if_pos h]
      refine ⟨?_, Or.inr ⟨e, by simp, rfl⟩⟩
      intro x hx
      rcases List.mem_cons.mp hx with hx | hx
      · rw [hx]
      · exact le_trans (ih.1 x hx) h
    · rw [if_neg h]
      refine ⟨?_, ?_⟩
      · intro x hx
        rcases List.mem_cons.mp hx with hx | hx
        · rw [hx]; omega
        · exact ih.1 x hx
      · rcases ih.2 with h2 | ⟨x, hx, h2⟩
        · exact Or.inl h2
        · exact Or.inr ⟨x, List.mem_cons_of_mem _ hx, h2⟩

namespace QgsGpsInformation

lemma bestFixOf_nil : bestFixOf [] = (GpsFixStatus.NoData, GnssConstellation.Unknown) := rfl

lemma bestFixOf_snoc (m : List (GnssConstellation × GpsFixStatus))
    (e : GnssConstellation × GpsFixStatus) :
    bestFixOf (m ++ [e]) = bestFixStep (bestFixOf m) e := by
  simp [bestFixOf, List.foldl_append]

/-- After one pass of the loop body the best status is the larger of the old
best status and the entry's status. -/
lemma bestFixStep_rank (acc : GpsFixStatus × GnssConstellation)
    (e : GnssConstellation × GpsFixStatus) :
    (bestFixStep acc e).1.rank = max acc.1.rank e.2.rank
      ∧ ((bestFixStep acc e).1 = acc.1 ∨ (bestFixStep acc e).1 = e.2) := by
  obtain ⟨s, c⟩ := acc
  obtain ⟨k, v⟩ := e
  cases s <;> cases v <;> simp [bestFixStep, GpsFixStatus.rank]

lemma bestFixOf_isMax (m : List (GnssConstellation × GpsFixStatus)) :
    IsMaxStatus m (bestFixOf m).1 := by
  induction m using List.reverseRecOn with
  | nil => exact ⟨by simp, Or.inl rfl⟩
  | append_singleton m e ih =>
    rw [bestFixOf_snoc]
    have hr := bestFixStep_rank (bestFixOf m) e
    refine ⟨?_, ?_⟩
    · intro x hx
      rw [hr.1]
      rcases List.mem_append.mp hx with hx | hx
      · exact le_trans (ih.1 x hx) (le_max_left _ _)
      · rw [List.mem_singleton.mp hx]; exact le_max_right _ _
    · rcases hr.2 with h | h
      · rw [h]
        rcases ih.2 with h2 | ⟨x, hx, h2⟩
        · exact Or.inl h2
        · exact Or.inr ⟨x, List.mem_append_left _ hx, h2⟩
      · exact Or.inr ⟨e, by simp, h.symm⟩

end QgsGpsInformation

lemma firstKeyWith_snoc (s : GpsFixStatus) (m : List (GnssConstellation × GpsFixStatus))
    (e : GnssConstellation × GpsFixStatus) :
    firstKeyWith s (m ++ [e])
      = (firstKeyWith s m).or (if e.2 = s then some e.1 else none) := by
  unfold firstKeyWith
  rw [List.find?_append]
  cases h : List.find? (fun e => decide (e.2 = s)) m with
  | some x => simp
  | none =>
    by_cases he : e.2 = s <;> simp [List.find?_cons, he]

lemma lastKeyWith_snoc (s : GpsFixStatus) (m : List (GnssConstellation × GpsFixStatus))
    (e : GnssConstellation × GpsFixStatus) :
    lastKeyWith s (m ++ [e]) = if e.2 = s then some e.1 else lastKeyWith s m := by
  unfold lastKeyWith firstKeyWith
  by_cases he : e.2 = s <;> simp [List.find?_cons, he]

lemma firstKeyWith_eq_none_of_rank (s : GpsFixStatus)
    (m : List (GnssConstellation × GpsFixStatus))
    (h : ∀ e ∈ m, e.2.rank < s.rank) : firstKeyWith s m = none := by
  unfold firstKeyWith
  rw [Option.map_eq_none', List.find?_eq_none]
  intro e he
  have := h e he
  simp only [decide_eq_true_eq]
  intro h2
  rw [h2] at this
  exact lt_irrefl _ this

/-- The constellation the loop of `bestFixStatus` leaves, by the best status:
`Unknown` at NoData, the first NoFix key at NoFix, the last Fix2D key at Fix2D
and the last Fix3D key at Fix3D. -/
lemma QgsGpsInformation.bestFixOf_key (m : List (GnssConstellation × GpsFixStatus)) :
    ((bestFixOf m).1 = GpsFixStatus.NoData → (bestFixOf m).2 = GnssConstellation.Unknown)
    ∧ ((bestFixOf m).1 = GpsFixStatus.NoFix →
        firstKeyWith GpsFixStatus.NoFix m = some (bestFixOf m).2)
    ∧ ((bestFixOf m).1 = GpsFixStatus.Fix2D →
        lastKeyWith GpsFixStatus.Fix2D m = some (bestFixOf m).2)
    ∧ ((bestFixOf m).1 = GpsFixStatus.Fix3D →
        lastKeyWith GpsFixStatus.Fix3D m = some (bestFixOf m).2) := by
  induction m using List.reverseRecOn with
  | nil => simp [bestFixOf_nil]
  | append_singleton m e ih =>
    have hmax := bestFixOf_isMax m
    have hnone : (bestFixOf m).1 = GpsFixStatus.NoData →
        firstKeyWith GpsFixStatus.NoFix m = none := by
      intro h
      apply firstKeyWith_eq_none_of_rank
      intro x hx
      have := hmax.1 x hx
      rw [h] at this
      simp only [GpsFixStatus.rank] at this ⊢
      omega
    rw [bestFixOf_snoc, firstKeyWith_snoc, lastKeyWith_snoc, lastKeyWith_snoc]
    rcases hb : bestFixOf m with ⟨s, c⟩
    rw [hb] at ih hnone
    obtain ⟨k, v⟩ := e
    cases s <;> cases v <;> simp_all [bestFixStep]

/-- C3: the status returned by `bestFixStatus` is the maximum of the mapping's
values under NoData < NoFix < Fix2D < Fix3D (no entry ranks above it), and the
result is (NoData, Unknown) for the empty mapping; it is Fix3D exactly when
some entry is Fix3D, Fix2D exactly when some entry is Fix2D and none is Fix3D,
and it is the same for every iteration order of the same entries. -/
theorem bestFixStatus_eq_max (r : QgsGpsInformation) :
    r.bestFixStatus.1 = maxFixStatus r.mConstellationFixStatus
    ∧ (∀ e ∈ r.mConstellationFixStatus, e.2.rank ≤ r.bestFixStatus.1.rank)
    ∧ (r.mConstellationFixStatus = [] →
        r.bestFixStatus = (GpsFixStatus.NoData, GnssConstellation.Unknown))
    ∧ (r.bestFixStatus.1 = GpsFixStatus.Fix3D ↔
        ∃ e ∈ r.mConstellationFixStatus, e.2 = GpsFixStatus.Fix3D)
    ∧ (r.bestFixStatus.1 = GpsFixStatus.Fix2D ↔
        (∃ e ∈ r.mConstellationFixStatus, e.2 = GpsFixStatus.Fix2D)
          ∧ ¬ ∃ e ∈ r.mConstellationFixStatus, e.2 = GpsFixStatus.Fix3D)
    ∧ (∀ r2 : QgsGpsInformation,
        r2.mConstellationFixStatus.Perm r.mConstellationFixStatus →
        r2.bestFixStatus.1 = r.bestFixStatus.1) := by
  have hmax := QgsGpsInformation.bestFixOf_isMax r.mConstellationFixStatus
  unfold QgsGpsInformation.bestFixStatus
  refine ⟨hmax.unique (maxFixStatus_isMax _), hmax.1, ?_, ?_, ?_, ?_⟩
  · intro h
    rw [h]
    rfl
  · constructor
    · intro h
      rcases hmax.2 with h2 | h2
      · rw [h] at h2; cases h2
      · rw [h] at h2; exact h2
    · rintro ⟨e, he, h⟩
      have h1 := hmax.1 e he
      rw [h] at h1
      revert h1
      cases (QgsGpsInformation.bestFixOf r.mConstellationFixStatus).1 <;>
        simp [GpsFixStatus.rank]
  · constructor
    · intro h
      refine ⟨?_, ?_⟩
      · rcases hmax.2 with h2 | h2
        · rw [h] at h2; cases h2
        · rw [h] at h2; exact h2
      · rintro ⟨e, he, h3⟩
        have h1 := hmax.1 e he
        rw [h, h3] at h1
        simp [GpsFixStatus.rank] at h1
    · rintro ⟨⟨e, he, h⟩, hno⟩
      have h1 := hmax.1 e he
      rw [h] at h1
      rcases hmax.2 with h2 | ⟨x, hx, h2⟩
      · rw [h2] at h1
        simp [GpsFixStatus.rank] at h1
      · revert h1 h2
        cases hs : (QgsGpsInformation.bestFixOf r.mConstellationFixStatus).1 <;>
          simp [GpsFixStatus.rank]
        intro h2
        exact hno ⟨x, hx, h2⟩
  · intro r2 hp
    exact (QgsGpsInformation.bestFixOf_isMax r2.mConstellationFixStatus).unique (hmax.perm hp)

/-- C4, as the code has it: among several constellations with the best
status, `bestFixStatus` returns the first NoFix key when the best status is
NoFix, and the last key with the best status when that is Fix2D or Fix3D. -/
theorem bestFixStatus_tie_break (r : QgsGpsInformation) :
    (r.bestFixStatus.1 = GpsFixStatus.NoFix →
      firstKeyWith GpsFixStatus.NoFix r.mConstellationFixStatus = some r.bestFixStatus.2)
    ∧ (r.bestFixStatus.1 = GpsFixStatus.Fix2D →
      lastKeyWith GpsFixStatus.Fix2D r.mConstellationFixStatus = some r.bestFixStatus.2)
    ∧ (r.bestFixStatus.1 = GpsFixStatus.Fix3D →
      lastKeyWith GpsFixStatus.Fix3D r.mConstellationFixStatus = some r.bestFixStatus.2) :=
  (QgsGpsInformation.bestFixOf_key r.mConstellationFixStatus).2

/-- C4 fails as stated: with Gps and Glonass both at Fix3D the best status is
Fix3D and the constellation returned is Glonass, while the first Fix3D key is
Gps; with Gps and Galileo both at Fix2D it is Galileo, not Gps. Both mappings
list their keys in increasing order, as a `QMap` iterates them. -/
theorem bestFixStatus_tie_not_first :
    (sampleTie3D.bestFixStatus = (GpsFixStatus.Fix3D, GnssConstellation.Glonass)
      ∧ firstKeyWith sampleTie3D.bestFixStatus.1 sampleTie3D.mConstellationFixStatus
          = some GnssConstellation.Gps
      ∧ firstKeyWith sampleTie3D.bestFixStatus.1 sampleTie3D.mConstellationFixStatus
          ≠ some sampleTie3D.bestFixStatus.2)
    ∧ (sampleTie2D.bestFixStatus = (GpsFixStatus.Fix2D, GnssConstellation.Galileo)
      ∧ firstKeyWith sampleTie2D.bestFixStatus.1 sampleTie2D.mConstellationFixStatus
          ≠ some sampleTie2D.bestFixStatus.2)
    ∧ (sampleTie3D.mConstellationFixStatus.map (fun e => e.1.ord)).Pairwise (fun a b => a < b)
    ∧ (sampleTie2D.mConstellationFixStatus.map (fun e => e.1.ord)).Pairwise (fun a b => a < b) := by
  decide

/-! ## The connection state tracker -/

namespace QgsGpsConnection

lemma onStateChanged_lastFix (pointNe : QgsPoint → QgsPoint → Bool) (c : QgsGpsConnection)
    (info : QgsGpsInformation) :
    (onStateChanged pointNe c info).1.mLastFixStatus = info.bestFixStatus.1 := by
  unfold onStateChanged
  by_cases hv : info.isValid = true <;>
    by_cases hp : pointNe (QgsPoint.mk info.longitude info.latitude info.elevation)
      c.mLastLocation = true <;>
    by_cases hf : info.bestFixStatus.1 = c.mLastFixStatus <;>
    simp [hv, hp, hf]

lemma onStateChanged_fixSignals (pointNe : QgsPoint → QgsPoint → Bool) (c : QgsGpsConnection)
    (info : QgsGpsInformation) :
    fixSignals (onStateChanged pointNe c info).2
      = if info.bestFixStatus.1 ≠ c.mLastFixStatus then
          [GpsSignal.fixStatusChanged info.bestFixStatus.1]
        else [] := by
  unfold onStateChanged fixSignals
  by_cases hv : info.isValid = true <;>
    by_cases hp : pointNe (QgsPoint.mk info.longitude info.latitude info.elevation)
      c.mLastLocation = true <;>
    by_cases hf : info.bestFixStatus.1 = c.mLastFixStatus <;>
    simp [hv, hp, hf, GpsSignal.isFixStatusChanged]

lemma mem_fixSignals (l : List GpsSignal) (s : GpsFixStatus) :
    GpsSignal.fixStatusChanged s ∈ l ↔ GpsSignal.fixStatusChanged s ∈ fixSignals l := by
  simp [fixSignals, GpsSignal.isFixStatusChanged]

lemma onStateChanged_lastLocation (pointNe : QgsPoint → QgsPoint → Bool)
    (c : QgsGpsConnection) (info : QgsGpsInformation) :
    (onStateChanged pointNe c info).1.mLastLocation
      = if info.isValid then QgsPoint.mk info.longitude info.latitude info.elevation
        else c.mLastLocation := by
  unfold onStateChanged
  by_cases hv : info.isValid = true <;>
    by_cases hp : pointNe (QgsPoint.mk info.longitude info.latitude info.elevation)
      c.mLastLocation = true <;>
    by_cases hf : info.bestFixStatus.1 = c.mLastFixStatus <;>
    simp [hv, hp, hf]

lemma onStateChanged_positionSignals (pointNe : QgsPoint → QgsPoint → Bool)
    (c : QgsGpsConnection) (info : QgsGpsInformation) :
    positionSignals (onStateChanged pointNe c info).2
      = if info.isValid = true
            ∧ pointNe (QgsPoint.mk info.longitude info.latitude info.elevation)
                c.mLastLocation = true then
          [GpsSignal.positionChanged (QgsPoint.mk info.longitude info.latitude info.elevation)]
        else [] := by
  unfold onStateChanged positionSignals
  by_cases hv : info.isValid = true <;>
    by_cases hp : pointNe (QgsPoint.mk info.longitude info.latitude info.elevation)
      c.mLastLocation = true <;>
    by_cases hf : info.bestFixStatus.1 = c.mLastFixStatus <;>
    simp [hv, hp, hf, GpsSignal.isPositionChanged]

lemma mem_positionSignals (l : List GpsSignal) (p : QgsPoint) :
    GpsSignal.positionChanged p ∈ l ↔ GpsSignal.positionChanged p ∈ positionSignals l := by
  simp [positionSignals, GpsSignal.isPositionChanged]

/-- Reports that all classify to the status the connection already stores
make it emit no `fixStatusChanged`. -/
lemma feed_fixSignals_of_eq (pointNe : QgsPoint → QgsPoint → Bool)
    (rs : List QgsGpsInformation) (c : QgsGpsConnection)
    (h : ∀ x ∈ rs, x.bestFixStatus.1 = c.mLastFixStatus) :
    (feed pointNe c rs).2.map fixSignals = rs.map (fun _ => []) := by
  induction rs generalizing c with
  | nil => rfl
  | cons r rest ih =>
    have hr : r.bestFixStatus.1 = c.mLastFixStatus := h r (by simp)
    have hnext : ∀ x ∈ rest,
        x.bestFixStatus.1 = (onStateChanged pointNe c r).1.mLastFixStatus := by
      intro x hx
      rw [onStateChanged_lastFix, hr]
      exact h x (List.mem_cons_of_mem _ hx)
    simp only [feed, List.map_cons, ih _ hnext, onStateChanged_fixSignals, hr, ne_eq,
      not_true_eq_false, if_false]

end QgsGpsConnection

/-- C6: on every report, valid or not, `onStateChanged` emits a
`fixStatusChanged` exactly when the report's best fix status differs from the
stored one; it then emits exactly one, carrying the new status; and afterwards
the stored status is the report's best fix status in both cases. -/
theorem onStateChanged_fixStatusChanged_iff (pointNe : QgsPoint → QgsPoint → Bool)
    (c : QgsGpsConnection) (info : QgsGpsInformation) :
    ((∃ s, GpsSignal.fixStatusChanged s ∈ (QgsGpsConnection.onStateChanged pointNe c info).2)
        ↔ info.bestFixStatus.1 ≠ c.mLastFixStatus)
    ∧ (info.bestFixStatus.1 ≠ c.mLastFixStatus →
        fixSignals (QgsGpsConnection.onStateChanged pointNe c info).2
          = [GpsSignal.fixStatusChanged info.bestFixStatus.1])
    ∧ (info.bestFixStatus.1 = c.mLastFixStatus →
        fixSignals (QgsGpsConnection.onStateChanged pointNe c info).2 = [])
    ∧ (QgsGpsConnection.onStateChanged pointNe c info).1.mLastFixStatus
        = info.bestFixStatus.1 := by
  have hf := QgsGpsConnection.onStateChanged_fixSignals pointNe c info
  refine ⟨?_, ?_, ?_, QgsGpsConnection.onStateChanged_lastFix pointNe c info⟩
  · constructor
    · rintro ⟨s, hs⟩ heq
      rw [QgsGpsConnection.mem_fixSignals, hf] at hs
      simp [heq] at hs
    · intro hne
      refine ⟨info.bestFixStatus.1, ?_⟩
      rw [QgsGpsConnection.mem_fixSignals, hf]
      simp [hne]
  · intro hne
    rw [hf, if_pos hne]
  · intro heq
    rw [hf]
    simp [heq]

/-- C7, as the code has it: a sequence of reports that all classify to the
same status makes the connection emit one `fixStatusChanged`, on the first
report, when that status differs from the status the connection stores, and
none when it equals it; the remaining reports emit none in both cases. -/
theorem feed_same_status (pointNe : QgsPoint → QgsPoint → Bool) (c : QgsGpsConnection)
    (r : QgsGpsInformation) (rs : List QgsGpsInformation) (s : GpsFixStatus)
    (h : ∀ x ∈ r :: rs, x.bestFixStatus.1 = s) :
    (QgsGpsConnection.feed pointNe c (r :: rs)).2.map fixSignals
      = (if s ≠ c.mLastFixStatus then [GpsSignal.fixStatusChanged s] else [])
          :: rs.map (fun _ => []) := by
  have hr : r.bestFixStatus.1 = s := h r (by simp)
  have hnext : ∀ x ∈ rs, x.bestFixStatus.1
      = (QgsGpsConnection.onStateChanged pointNe c r).1.mLastFixStatus := by
    intro x hx
    rw [QgsGpsConnection.onStateChanged_lastFix, hr]
    exact h x (List.mem_cons_of_mem _ hx)
  simp only [QgsGpsConnection.feed, List.map_cons,
    QgsGpsConnection.feed_fixSignals_of_eq pointNe rs _ hnext,
    QgsGpsConnection.onStateChanged_fixSignals, hr]

/-- Witness of C7: three Fix3D reports fed to a fresh connection give one
`fixStatusChanged`, on the first. -/
theorem feed_same_status_witness :
    (QgsGpsConnection.feed QgsPoint.neExact (QgsGpsConnection.init none)
        [sampleFix3D, sampleFix3D, sampleFix3D]).2.map fixSignals
      = [[GpsSignal.fixStatusChanged GpsFixStatus.Fix3D], [], []] :=
  feed_same_status QgsPoint.neExact (QgsGpsConnection.init none) sampleFix3D
    [sampleFix3D, sampleFix3D] GpsFixStatus.Fix3D (by decide)

/-- C7 fails as stated: two reports that both classify to NoData, fed to a
fresh connection (which stores NoData), produce no `fixStatusChanged` at all;
so do two Fix3D reports fed to a connection that already shows Fix3D. -/
theorem feed_same_status_no_notification :
    (∀ x ∈ [QgsGpsInformation.neutral, QgsGpsInformation.neutral],
        x.bestFixStatus.1 = GpsFixStatus.NoData)
    ∧ (QgsGpsConnection.feed QgsPoint.neExact (QgsGpsConnection.init none)
        [QgsGpsInformation.neutral, QgsGpsInformation.neutral]).2.map fixSignals = [[], []]
    ∧ (QgsGpsConnection.feed QgsPoint.neExact sampleConnected
        [sampleFix3D, sampleFix3D]).2.map fixSignals = [[], []] := by
  decide

/-- C8: with a source configured `close` returns true; a stored status other
than NoData is set to NoData with exactly one `fixStatusChanged` carrying
NoData (the only signal emitted); a stored NoData emits nothing; and a second
`close` right after the first emits nothing. -/
theorem close_with_source (c : QgsGpsConnection) (d : QIODevice) (h : c.mSource = some d) :
    (QgsGpsConnection.close c).1 = true
    ∧ (c.mLastFixStatus ≠ GpsFixStatus.NoData →
        (QgsGpsConnection.close c).2.1.mLastFixStatus = GpsFixStatus.NoData
        ∧ (QgsGpsConnection.close c).2.2 = [GpsSignal.fixStatusChanged GpsFixStatus.NoData])
    ∧ (c.mLastFixStatus = GpsFixStatus.NoData →
        (QgsGpsConnection.close c).2.1.mLastFixStatus = GpsFixStatus.NoData
        ∧ (QgsGpsConnection.close c).2.2 = [])
    ∧ (QgsGpsConnection.close (QgsGpsConnection.close c).2.1).1 = true
    ∧ (QgsGpsConnection.close (QgsGpsConnection.close c).2.1).2.2 = [] := by
  unfold QgsGpsConnection.close
  by_cases hs : c.mLastFixStatus = GpsFixStatus.NoData <;> simp [h, hs]

/-- Witness of C8: a connected session showing Fix3D, closed. -/
theorem close_with_source_witness :
    sampleConnected.mLastFixStatus = GpsFixStatus.Fix3D
    ∧ (QgsGpsConnection.close sampleConnected).1 = true
    ∧ (QgsGpsConnection.close sampleConnected).2.2
        = [GpsSignal.fixStatusChanged GpsFixStatus.NoData]
    ∧ (QgsGpsConnection.close (QgsGpsConnection.close sampleConnected).2.1).2.2 = [] :=
  have h := close_with_source sampleConnected sampleDevice rfl
  ⟨rfl, h.1, (h.2.1 (by decide)).2, h.2.2.2.2⟩

namespace QgsGpsConnection

lemma onStateChanged_lastInfo (pointNe : QgsPoint → QgsPoint → Bool) (c : QgsGpsConnection)
    (info : QgsGpsInformation) :
    (onStateChanged pointNe c info).1.mLastGPSInformation = c.mLastGPSInformation := by
  unfold onStateChanged
  by_cases hv : info.isValid = true <;>
    by_cases hp : pointNe (QgsPoint.mk info.longitude info.latitude info.elevation)
      c.mLastLocation = true <;>
    by_cases hf : info.bestFixStatus.1 = c.mLastFixStatus <;>
    simp [hv, hp, hf]

lemma onReport_tracks (pointNe : QgsPoint → QgsPoint → Bool) (c : QgsGpsConnection)
    (info : QgsGpsInformation) :
    (onReport pointNe c info).1.mLastGPSInformation = info
      ∧ (onReport pointNe c info).1.mLastFixStatus = info.bestFixStatus.1 := by
  unfold onReport
  rw [onStateChanged_lastInfo, onStateChanged_lastFix]
  exact ⟨rfl, rfl⟩

lemma connect_frame (c : QgsGpsConnection) :
    (connect c).2.mLastGPSInformation = c.mLastGPSInformation
      ∧ (connect c).2.mLastFixStatus = c.mLastFixStatus := by
  unfold connect
  cases hs : c.mSource with
  | none => simp
  | some d => by_cases ho : d.openDevice.1 = true <;> simp [ho]

lemma close_frame (c : QgsGpsConnection) :
    (close c).2.1.mLastGPSInformation = c.mLastGPSInformation
      ∧ ((close c).2.1.mLastFixStatus = c.mLastFixStatus
          ∨ (close c).2.1.mLastFixStatus = GpsFixStatus.NoData) := by
  unfold close
  cases hs : c.mSource with
  | none => simp
  | some d => by_cases hf : c.mLastFixStatus = GpsFixStatus.NoData <;> simp [hf]

lemma setSource_lastInfo (c : QgsGpsConnection) (source : Option QIODevice) :
    (setSource c source).1.mLastGPSInformation = QgsGpsInformation.neutral := by
  simp [setSource, clearLastGPSInformation]

lemma applyOp_tracks (pointNe : QgsPoint → QgsPoint → Bool) (c : QgsGpsConnection)
    (op : ConnOp) (h : FixStatusTracksReport c) :
    FixStatusTracksReport (applyOp pointNe c op) := by
  unfold FixStatusTracksReport at h ⊢
  cases op with
  | connect =>
    simp only [applyOp, (connect_frame c).1, (connect_frame c).2]
    exact h
  | report info =>
    intro _
    simp only [applyOp, (onReport_tracks pointNe c info).1, (onReport_tracks pointNe c info).2]
    exact Or.inl trivial
  | close =>
    simp only [applyOp, (close_frame c).1]
    intro hne
    rcases (close_frame c).2 with h2 | h2
    · rw [h2]; exact h hne
    · exact Or.inr h2
  | clear =>
    intro hne
    exact absurd rfl hne
  | setSource source =>
    intro hne
    exact absurd (setSource_lastInfo c source) hne

lemma run_tracks (pointNe : QgsPoint → QgsPoint → Bool) (ops : List ConnOp)
    (c : QgsGpsConnection) (h : FixStatusTracksReport c) :
    FixStatusTracksReport (run pointNe c ops) := by
  induction ops generalizing c with
  | nil => exact h
  | cons op rest ih => exact ih _ (applyOp_tracks pointNe c op h)

end QgsGpsConnection

/-- C9, as the code has it: in every state reached from the initial state by
`connect`, report delivery, `close`, `clearLastGPSInformation` and `setSource`,
whenever the stored report is not the neutral one, the stored fix status is
the report's best fix status or NoData (the value `close` leaves). -/
theorem reachable_fixStatus_tracks_report (pointNe : QgsPoint → QgsPoint → Bool)
    (dev : Option QIODevice) (ops : List ConnOp)
    (h : (QgsGpsConnection.run pointNe (QgsGpsConnection.init dev) ops).mLastGPSInformation
      ≠ QgsGpsInformation.neutral) :
    (QgsGpsConnection.run pointNe (QgsGpsConnection.init dev) ops).mLastFixStatus
        = (QgsGpsConnection.run pointNe (QgsGpsConnection.init dev)
            ops).mLastGPSInformation.bestFixStatus.1
      ∨ (QgsGpsConnection.run pointNe (QgsGpsConnection.init dev) ops).mLastFixStatus
        = GpsFixStatus.NoData :=
  QgsGpsConnection.run_tracks pointNe ops (QgsGpsConnection.init dev)
    (fun hne => absurd rfl hne) h

/-- Witness of C9: after `connect` and one Fix3D report the stored report is
not neutral and the stored status is its best fix status, Fix3D. -/
theorem reachable_fixStatus_tracks_report_witness :
    (QgsGpsConnection.run QgsPoint.neExact (QgsGpsConnection.init (some sampleDevice))
        [ConnOp.connect, ConnOp.report sampleFix3D]).mLastGPSInformation
      ≠ QgsGpsInformation.neutral
    ∧ ((QgsGpsConnection.run QgsPoint.neExact (QgsGpsConnection.init (some sampleDevice))
        [ConnOp.connect, ConnOp.report sampleFix3D]).mLastFixStatus
        = (QgsGpsConnection.run QgsPoint.neExact (QgsGpsConnection.init (some sampleDevice))
            [ConnOp.connect, ConnOp.report sampleFix3D]).mLastGPSInformation.bestFixStatus.1
      ∨ (QgsGpsConnection.run QgsPoint.neExact (QgsGpsConnection.init (some sampleDevice))
        [ConnOp.connect, ConnOp.report sampleFix3D]).mLastFixStatus = GpsFixStatus.NoData) :=
  ⟨by decide,
    reachable_fixStatus_tracks_report QgsPoint.neExact (some sampleDevice)
      [ConnOp.connect, ConnOp.report sampleFix3D] (by decide)⟩

/-- C9 fails as stated: after `connect`, one Fix3D report and `close`, the
stored report is still the Fix3D report, not the neutral one, while the stored
fix status is NoData and the report's best fix status is Fix3D. -/
theorem close_breaks_fixStatus_invariant :
    (QgsGpsConnection.run QgsPoint.neExact (QgsGpsConnection.init (some sampleDevice))
        [ConnOp.connect, ConnOp.report sampleFix3D, ConnOp.close]).mLastGPSInformation
      ≠ QgsGpsInformation.neutral
    ∧ (QgsGpsConnection.run QgsPoint.neExact (QgsGpsConnection.init (some sampleDevice))
        [ConnOp.connect, ConnOp.report sampleFix3D, ConnOp.close]).mLastFixStatus
      = GpsFixStatus.NoData
    ∧ (QgsGpsConnection.run QgsPoint.neExact (QgsGpsConnection.init (some sampleDevice))
        [ConnOp.connect, ConnOp.report sampleFix3D,
          ConnOp.close]).mLastGPSInformation.bestFixStatus.1
      = GpsFixStatus.Fix3D := by
  decide

/-- C10: an invalid report leaves the last location unchanged and emits no
`positionChanged`, although it can change the stored fix status (a NoFix
report on a fresh connection does); a valid report sets the last location to
(longitude, latitude, elevation) and emits `positionChanged`, once and with
that point, exactly when the point differs (`operator!=`) from the previous
last location. -/
theorem onStateChanged_position (pointNe : QgsPoint → QgsPoint → Bool)
    (c : QgsGpsConnection) (info : QgsGpsInformation) :
    (info.isValid = false →
      (QgsGpsConnection.onStateChanged pointNe c info).1.mLastLocation = c.mLastLocation
      ∧ ∀ p, GpsSignal.positionChanged p ∉ (QgsGpsConnection.onStateChanged pointNe c info).2)
    ∧ (info.isValid = true →
      (QgsGpsConnection.onStateChanged pointNe c info).1.mLastLocation
        = QgsPoint.mk info.longitude info.latitude info.elevation
      ∧ ((∃ p, GpsSignal.positionChanged p ∈ (QgsGpsConnection.onStateChanged pointNe c info).2)
          ↔ pointNe (QgsPoint.mk info.longitude info.latitude info.elevation)
              c.mLastLocation = true)
      ∧ positionSignals (QgsGpsConnection.onStateChanged pointNe c info).2
          = if pointNe (QgsPoint.mk info.longitude info.latitude info.elevation)
                c.mLastLocation = true then
              [GpsSignal.positionChanged
                (QgsPoint.mk info.longitude info.latitude info.elevation)]
            else [])
    ∧ (sampleNoFix.isValid = false
      ∧ (QgsGpsConnection.onStateChanged pointNe (QgsGpsConnection.init none)
          sampleNoFix).1.mLastFixStatus = GpsFixStatus.NoFix
      ∧ (QgsGpsConnection.init none).mLastFixStatus = GpsFixStatus.NoData) := by
  have hl := QgsGpsConnection.onStateChanged_lastLocation pointNe c info
  have hp := QgsGpsConnection.onStateChanged_positionSignals pointNe c info
  refine ⟨?_, ?_, ?_⟩
  · intro hv
    refine ⟨by rw [hl]; simp [hv], ?_⟩
    intro p hmem
    rw [QgsGpsConnection.mem_positionSignals, hp] at hmem
    simp [hv] at hmem
  · intro hv
    refine ⟨by rw [hl]; simp [hv], ?_, ?_⟩
    · constructor
      · rintro ⟨p, hmem⟩
        rw [QgsGpsConnection.mem_positionSignals, hp] at hmem
        by_contra hne
        simp [hne] at hmem
      · intro hne
        refine ⟨QgsPoint.mk info.longitude info.latitude info.elevation, ?_⟩
        rw [QgsGpsConnection.mem_positionSignals, hp]
        simp only [hv, hne, and_self, if_true]
        exact List.mem_singleton.mpr rfl
    · rw [hp]
      simp [hv]
  · refine ⟨by decide, ?_, rfl⟩
    rw [QgsGpsConnection.onStateChanged_lastFix]
    decide

/-! ## Clearing, replacing the source, and the no-source case -/

/-- C11, as the code has it: `clearLastGPSInformation` replaces the stored
report by the neutral default report, whether the connection is open or not,
and leaves the stored fix status, the last location, the connection status
and the source as they were. -/
theorem clearLastGPSInformation_resets_report (c : QgsGpsConnection) :
    (QgsGpsConnection.clearLastGPSInformation c).mLastGPSInformation
        = QgsGpsInformation.neutral
    ∧ (QgsGpsConnection.clearLastGPSInformation c).mLastFixStatus = c.mLastFixStatus
    ∧ (QgsGpsConnection.clearLastGPSInformation c).mLastLocation = c.mLastLocation
    ∧ (QgsGpsConnection.clearLastGPSInformation c).mStatus = c.mStatus
    ∧ (QgsGpsConnection.clearLastGPSInformation c).mSource = c.mSource :=
  ⟨rfl, rfl, rfl, rfl, rfl⟩

/-- C11 fails as stated: after `connect`, one valid Fix3D report and
`clearLastGPSInformation`, the stored report is neutral but the stored fix
status is still Fix3D, not NoData, and the last location is still the
report's point (0, 0, 0), not the empty point. -/
theorem clear_keeps_fixStatus_and_location :
    (QgsGpsConnection.run QgsPoint.neExact (QgsGpsConnection.init (some sampleDevice))
        [ConnOp.connect, ConnOp.report sampleFix3D, ConnOp.clear]).mLastGPSInformation
      = QgsGpsInformation.neutral
    ∧ (QgsGpsConnection.run QgsPoint.neExact (QgsGpsConnection.init (some sampleDevice))
        [ConnOp.connect, ConnOp.report sampleFix3D, ConnOp.clear]).mLastFixStatus
      = GpsFixStatus.Fix3D
    ∧ (QgsGpsConnection.run QgsPoint.neExact (QgsGpsConnection.init (some sampleDevice))
        [ConnOp.connect, ConnOp.report sampleFix3D, ConnOp.clear]).mLastFixStatus
      ≠ GpsFixStatus.NoData
    ∧ (QgsGpsConnection.run QgsPoint.neExact (QgsGpsConnection.init (some sampleDevice))
        [ConnOp.connect, ConnOp.report sampleFix3D, ConnOp.clear]).mLastLocation
      = QgsPoint.mk (Dbl.fin 0) (Dbl.fin 0) (Dbl.fin 0)
    ∧ (QgsGpsConnection.run QgsPoint.neExact (QgsGpsConnection.init (some sampleDevice))
        [ConnOp.connect, ConnOp.report sampleFix3D, ConnOp.clear]).mLastLocation
      ≠ QgsPoint.empty := by
  decide

/-- C12: `setSource` emits a `fixStatusChanged` carrying NoData exactly when
the stored fix status was not NoData, and then only that one signal; it adopts
the new source and leaves the stored report neutral and the stored fix status
NoData. -/
theorem setSource_resets (c : QgsGpsConnection) (source : Option QIODevice) :
    ((∃ s, GpsSignal.fixStatusChanged s ∈ (QgsGpsConnection.setSource c source).2)
        ↔ c.mLastFixStatus ≠ GpsFixStatus.NoData)
    ∧ (QgsGpsConnection.setSource c source).2
        = (if c.mLastFixStatus ≠ GpsFixStatus.NoData then
            [GpsSignal.fixStatusChanged GpsFixStatus.NoData]
          else [])
    ∧ (QgsGpsConnection.setSource c source).1.mSource = source
    ∧ (QgsGpsConnection.setSource c source).1.mLastGPSInformation
        = QgsGpsInformation.neutral
    ∧ (QgsGpsConnection.setSource c source).1.mLastFixStatus = GpsFixStatus.NoData := by
  unfold QgsGpsConnection.setSource QgsGpsConnection.cleanupSource
    QgsGpsConnection.clearLastGPSInformation
  by_cases h : c.mLastFixStatus = GpsFixStatus.NoData <;> simp [h]

/-- C13: without a source `connect` and `close` return false, emit nothing and
leave the whole connection unchanged, whatever the stored fix status is; with
a source `connect` returns the result of the transport's `open` and sets the
status to Connected when that result is true, leaving it as it was otherwise. -/
theorem connect_close_without_source (c : QgsGpsConnection) :
    (c.mSource = none →
      QgsGpsConnection.connect c = (false, c)
      ∧ QgsGpsConnection.close c = (false, c, []))
    ∧ (∀ d : QIODevice, c.mSource = some d →
      (QgsGpsConnection.connect c).1 = d.openDevice.1
      ∧ ((QgsGpsConnection.connect c).1 = true →
          (QgsGpsConnection.connect c).2.mStatus = Status.Connected)
      ∧ ((QgsGpsConnection.connect c).1 = false →
          (QgsGpsConnection.connect c).2.mStatus = c.mStatus)) := by
  refine ⟨?_, ?_⟩
  · intro h
    simp [QgsGpsConnection.connect, QgsGpsConnection.close, h]
  · intro d h
    unfold QgsGpsConnection.connect
    by_cases ho : d.openDevice.1 = true <;> simp [h, ho]

/-! ## Further properties of the classifier and of `close` -/

lemma QgsGpsInformation.bestFixOf_mem (m : List (GnssConstellation × GpsFixStatus)) :
    bestFixOf m = (GpsFixStatus.NoData, GnssConstellation.Unknown)
      ∨ ((bestFixOf m).2, (bestFixOf m).1) ∈ m := by
  induction m using List.reverseRecOn with
  | nil => exact Or.inl rfl
  | append_singleton m e ih =>
    rw [bestFixOf_snoc]
    unfold bestFixStep
    split
    · right
      simp
    · rcases ih with h | h
      · exact Or.inl h
      · exact Or.inr (List.mem_append_left _ h)

/-- C16: when the status returned by `bestFixStatus` is not NoData, the
constellation returned is a key of the mapping whose value is the returned
status; when it is NoData, the constellation returned is Unknown. -/
theorem bestFixStatus_constellation_consistent (r : QgsGpsInformation) :
    (r.bestFixStatus.1 ≠ GpsFixStatus.NoData →
      (r.bestFixStatus.2, r.bestFixStatus.1) ∈ r.mConstellationFixStatus)
    ∧ (r.bestFixStatus.1 = GpsFixStatus.NoData →
      r.bestFixStatus.2 = GnssConstellation.Unknown) := by
  unfold QgsGpsInformation.bestFixStatus
  refine ⟨?_, (QgsGpsInformation.bestFixOf_key r.mConstellationFixStatus).1⟩
  intro hne
  rcases QgsGpsInformation.bestFixOf_mem r.mConstellationFixStatus with h | h
  · rw [h] at hne
    exact absurd rfl hne
  · exact h

/-- C17: `fixStatus` never returns NoData: the result is NoFix, Fix2D or
Fix3D for every report, the neutral one included, and a report that is neither
vetoed to NoFix nor of fix type 2D gets Fix3D. -/
theorem fixStatus_ne_NoData (k : NmeaFixCodes) (r : QgsGpsInformation) :
    r.fixStatus k ≠ GpsFixStatus.NoData
    ∧ (r.fixStatus k = GpsFixStatus.NoFix ∨ r.fixStatus k = GpsFixStatus.Fix2D
        ∨ r.fixStatus k = GpsFixStatus.Fix3D)
    ∧ (¬ (r.status = 'V' ∨ r.fixType = k.NMEA_FIX_BAD
          ∨ r.qualityIndicator = GpsQualityIndicator.Invalid) →
        r.fixType ≠ k.NMEA_FIX_2D → r.fixStatus k = GpsFixStatus.Fix3D)
    ∧ QgsGpsInformation.neutral.fixStatus k ≠ GpsFixStatus.NoData := by
  have fix3 : ∀ x : QgsGpsInformation,
      ¬ (x.status = 'V' ∨ x.fixType = k.NMEA_FIX_BAD
          ∨ x.qualityIndicator = GpsQualityIndicator.Invalid) →
      x.fixType ≠ k.NMEA_FIX_2D → x.fixStatus k = GpsFixStatus.Fix3D := by
    intro x h1 h2
    have h3 : x.status = 'A' ∨ x.fixType = k.NMEA_FIX_3D
        ∨ x.qualityIndicator ≠ GpsQualityIndicator.Invalid :=
      Or.inr (Or.inr (fun hq => h1 (Or.inr (Or.inr hq))))
    simp only [QgsGpsInformation.fixStatus, if_neg h1, if_neg h2, if_pos h3]
  have key : ∀ x : QgsGpsInformation, x.fixStatus k ≠ GpsFixStatus.NoData := by
    intro x
    by_cases h1 : x.status = 'V' ∨ x.fixType = k.NMEA_FIX_BAD
        ∨ x.qualityIndicator = GpsQualityIndicator.Invalid
    · simp only [QgsGpsInformation.fixStatus, if_pos h1]
      decide
    · by_cases h2 : x.fixType = k.NMEA_FIX_2D
      · simp only [QgsGpsInformation.fixStatus, if_neg h1, if_pos h2]
        decide
      · rw [fix3 x h1 h2]
        decide
  refine ⟨key r, ?_, fix3 r, key _⟩
  have := key r
  revert this
  cases r.fixStatus k <;> simp

/-- C18: with a source configured, `close` leaves the connection status, the
stored report and the last location as they were; the stored fix status is
NoData afterwards, so it changes only when it was something else. -/
theorem close_frame_condition (c : QgsGpsConnection) (d : QIODevice)
    (h : c.mSource = some d) :
    (QgsGpsConnection.close c).2.1.mStatus = c.mStatus
    ∧ (QgsGpsConnection.close c).2.1.mLastGPSInformation = c.mLastGPSInformation
    ∧ (QgsGpsConnection.close c).2.1.mLastLocation = c.mLastLocation
    ∧ (QgsGpsConnection.close c).2.1.mLastFixStatus = GpsFixStatus.NoData := by
  unfold QgsGpsConnection.close
  by_cases hs : c.mLastFixStatus = GpsFixStatus.NoData <;> simp [h, hs]

/-- Witness of C18: a connected session showing Fix3D keeps the status
Connected and its stored report when closed. -/
theorem close_frame_condition_witness :
    (QgsGpsConnection.close sampleConnected).2.1.mStatus = Status.Connected
    ∧ (QgsGpsConnection.close sampleConnected).2.1.mLastGPSInformation = sampleFix3D
    ∧ (QgsGpsConnection.close sampleConnected).2.1.mLastLocation = QgsPoint.empty
    ∧ (QgsGpsConnection.close sampleConnected).2.1.mLastFixStatus = GpsFixStatus.NoData :=
  close_frame_condition sampleConnected sampleDevice rfl

/-- C19: `componentValue` is the null value for every component of an invalid
report; for a valid report it is the point (longitude, latitude) for Location,
the elevation for Altitude, the speed for GroundSpeed, the direction for
Bearing unless the direction is NaN, when it is null, and null for
TotalTrackLength and TrackDistanceFromStart. -/
theorem componentValue_spec (r : QgsGpsInformation) :
    (r.isValid = false → ∀ c : GpsInformationComponent, r.componentValue c = QVariant.null)
    ∧ (r.isValid = true →
      r.componentValue GpsInformationComponent.Location
          = QVariant.pointXY r.longitude r.latitude
      ∧ r.componentValue GpsInformationComponent.Altitude = QVariant.double r.elevation
      ∧ r.componentValue GpsInformationComponent.GroundSpeed = QVariant.double r.speed
      ∧ (r.direction ≠ Dbl.nan →
          r.componentValue GpsInformationComponent.Bearing = QVariant.double r.direction)
      ∧ (r.direction = Dbl.nan →
          r.componentValue GpsInformationComponent.Bearing = QVariant.null)
      ∧ r.componentValue GpsInformationComponent.TotalTrackLength = QVariant.null
      ∧ r.componentValue GpsInformationComponent.TrackDistanceFromStart = QVariant.null) := by
  refine ⟨?_, ?_⟩
  · intro h c
    simp [QgsGpsInformation.componentValue, h]
  · intro h
    refine ⟨?_, ?_, ?_, ?_, ?_, ?_, ?_⟩ <;>
      simp only [QgsGpsInformation.componentValue, h, Bool.not_true, Bool.false_eq_true,
        if_false]
    · intro hd
      cases hdir : r.direction <;> simp_all [Dbl.isNaN]
    · intro hd
      simp [hd, Dbl.isNaN]

/-! ## Processing a report twice -/

/-- A report processed by a connection that already stores the report's best
fix status and, when the report is valid, its point, changes nothing and emits
nothing, provided no point differs from itself. -/
lemma QgsGpsConnection.onStateChanged_fixed (pointNe : QgsPoint → QgsPoint → Bool)
    (hirr : ∀ p, pointNe p p = false) (c : QgsGpsConnection) (info : QgsGpsInformation)
    (hf : c.mLastFixStatus = info.bestFixStatus.1)
    (hl : info.isValid = true →
      c.mLastLocation = QgsPoint.mk info.longitude info.latitude info.elevation) :
    onStateChanged pointNe c info = (c, []) := by
  obtain ⟨src, li, st, fs, loc⟩ := c
  simp only at hf hl
  subst hf
  unfold onStateChanged
  by_cases hv : info.isValid = true
  · have hloc := hl hv
    subst hloc
    simp [hv, hirr]
  · simp [hv]

/-- C15: with a point comparison under which no point differs from itself,
processing a report a second time right after the first emits no signal at
all, neither `positionChanged` nor `fixStatusChanged`, and leaves the
connection, so the last location and the stored fix status, exactly as the
first processing left it. -/
theorem onStateChanged_twice (pointNe : QgsPoint → QgsPoint → Bool)
    (hirr : ∀ p, pointNe p p = false) (c : QgsGpsConnection) (info : QgsGpsInformation) :
    (QgsGpsConnection.onStateChanged pointNe
        (QgsGpsConnection.onStateChanged pointNe c info).1 info).2 = []
    ∧ (QgsGpsConnection.onStateChanged pointNe
        (QgsGpsConnection.onStateChanged pointNe c info).1 info).1.mLastLocation
      = (QgsGpsConnection.onStateChanged pointNe c info).1.mLastLocation
    ∧ (QgsGpsConnection.onStateChanged pointNe
        (QgsGpsConnection.onStateChanged pointNe c info).1 info).1.mLastFixStatus
      = (QgsGpsConnection.onStateChanged pointNe c info).1.mLastFixStatus := by
  have h := QgsGpsConnection.onStateChanged_fixed pointNe hirr
    (QgsGpsConnection.onStateChanged pointNe c info).1 info
    (QgsGpsConnection.onStateChanged_lastFix pointNe c info)
    (fun hv => by rw [QgsGpsConnection.onStateChanged_lastLocation]; simp [hv])
  rw [h]
  exact ⟨rfl, rfl, rfl⟩

/-- Witness of C15: a valid Fix3D report processed twice by a fresh
connection; the first processing emits both signals, the second none. -/
theorem onStateChanged_twice_witness :
    (QgsGpsConnection.onStateChanged QgsPoint.neExact (QgsGpsConnection.init none)
        sampleFix3D).2
      = [GpsSignal.positionChanged (QgsPoint.mk (Dbl.fin 0) (Dbl.fin 0) (Dbl.fin 0)),
          GpsSignal.fixStatusChanged GpsFixStatus.Fix3D]
    ∧ (QgsGpsConnection.onStateChanged QgsPoint.neExact
        (QgsGpsConnection.onStateChanged QgsPoint.neExact (QgsGpsConnection.init none)
          sampleFix3D).1 sampleFix3D).2 = [] :=
  ⟨by decide,
    (onStateChanged_twice QgsPoint.neExact (fun p => by simp [QgsPoint.neExact])
      (QgsGpsConnection.init none) sampleFix3D).1⟩

/-! ## The track length invariant -/

lemma measureLine_nonneg {α : Type} [OrderedAddCommMonoid α]
    (distance : QgsPoint → QgsPoint → α) (hnn : ∀ p q, 0 ≤ distance p q)
    (l : List QgsPoint) : 0 ≤ measureLine distance l := by
  induction l with
  | nil => exact le_refl _
  | cons p rest ih =>
    cases rest with
    | nil => exact le_refl _
    | cons q rest2 => exact add_nonneg (hnn p q) ih

lemma distance_le_measureLine {α : Type} [OrderedAddCommMonoid α]
    (distance : QgsPoint → QgsPoint → α) (hself : ∀ p, distance p p = 0)
    (htri : ∀ p q r, distance p r ≤ distance p q + distance q r)
    (rest : List QgsPoint) (p : QgsPoint) :
    distance p ((p :: rest).getLast (List.cons_ne_nil p rest))
      ≤ measureLine distance (p :: rest) := by
  induction rest generalizing p with
  | nil => exact le_of_eq (hself p)
  | cons q rest2 ih =>
    have hlast : (p :: q :: rest2).getLast (List.cons_ne_nil p (q :: rest2))
        = (q :: rest2).getLast (List.cons_ne_nil q rest2) := by
      simp [List.getLast_cons]
    rw [hlast]
    calc distance p ((q :: rest2).getLast (List.cons_ne_nil q rest2))
        ≤ distance p q + distance q ((q :: rest2).getLast (List.cons_ne_nil q rest2)) :=
          htri _ _ _
      _ ≤ distance p q + measureLine distance (q :: rest2) := add_le_add_left (ih q) _

/-- C14: for a Distance Calculator whose distance is never negative, is 0
from a point to itself and obeys the triangle inequality, the track after any
sequence of accepted vertices and resets has total length at least its
start-to-end distance, which is at least 0, and both are 0 for a track of 0 or
1 vertices. -/
theorem track_length_invariant {α : Type} [OrderedAddCommMonoid α]
    (distance : QgsPoint → QgsPoint → α) (hnn : ∀ p q, 0 ≤ distance p q)
    (hself : ∀ p, distance p p = 0)
    (htri : ∀ p q r, distance p r ≤ distance p q + distance q r) (ops : List TrackOp) :
    0 ≤ Track.trackDistanceFromStart distance (Track.run ops)
    ∧ Track.trackDistanceFromStart distance (Track.run ops)
        ≤ Track.totalTrackLength distance (Track.run ops)
    ∧ ((Track.run ops).mCaptureListWgs84.length ≤ 1 →
        Track.totalTrackLength distance (Track.run ops) = 0
        ∧ Track.trackDistanceFromStart distance (Track.run ops) = 0) := by
  unfold Track.trackDistanceFromStart Track.totalTrackLength
  cases hv : (Track.run ops).mCaptureListWgs84 with
  | nil => exact ⟨le_refl _, le_refl _, fun _ => ⟨rfl, rfl⟩⟩
  | cons p rest =>
    refine ⟨hnn _ _, distance_le_measureLine distance hself htri rest p, ?_⟩
    intro hlen
    cases rest with
    | nil => exact ⟨rfl, hself p⟩
    | cons q rest2 => simp at hlen

lemma QgsPoint.unitDistance_nonneg (p q : QgsPoint) : 0 ≤ QgsPoint.unitDistance p q := by
  exact Nat.zero_le _

lemma QgsPoint.unitDistance_self (p : QgsPoint) : QgsPoint.unitDistance p p = 0 := by
  simp [QgsPoint.unitDistance]

lemma QgsPoint.unitDistance_triangle (p q r : QgsPoint) :
    QgsPoint.unitDistance p r ≤ QgsPoint.unitDistance p q + QgsPoint.unitDistance q r := by
  unfold QgsPoint.unitDistance
  by_cases h1 : p = q
  · subst h1
    simp
  · by_cases h2 : q = r
    · subst h2
      simp
    · simp only [if_neg h1, if_neg h2]
      split <;> omega

/-- Witness of C14: with the unit distance, a track of three vertices that
ends where it starts has start-to-end distance 0 and total length 2. -/
theorem track_length_invariant_witness :
    (Track.run sampleTrackOps).mCaptureListWgs84.length = 3
    ∧ Track.trackDistanceFromStart QgsPoint.unitDistance (Track.run sampleTrackOps) = 0
    ∧ Track.totalTrackLength QgsPoint.unitDistance (Track.run sampleTrackOps) = 2
    ∧ 0 ≤ Track.trackDistanceFromStart QgsPoint.unitDistance (Track.run sampleTrackOps)
    ∧ Track.trackDistanceFromStart QgsPoint.unitDistance (Track.run sampleTrackOps)
        ≤ Track.totalTrackLength QgsPoint.unitDistance (Track.run sampleTrackOps) :=
  have h := track_length_invariant QgsPoint.unitDistance QgsPoint.unitDistance_nonneg
    QgsPoint.unitDistance_self QgsPoint.unitDistance_triangle sampleTrackOps
  ⟨by decide, by decide, by decide, h.1, h.2.1⟩
